import Mathlib

set_option maxRecDepth 10000

/-
Formal model (shallow embedding) of src/TwitterScraper.py.

A note on Python string identity.  The source guards pagination with
  min_tweet[tweet_id] is not max_tweet[tweet_id]
(written with Python subscript quoting), which compares OBJECT IDENTITY of
two strings, not their values.  Attribute strings produced by BeautifulSoup
are freshly allocated at each parse (CPython does not intern run-time
multi-character strings), so two id strings are the same object exactly
when they come from the same attribute of the same list item of the same
parse_tweets call.  The model therefore tags every tweet id with its
provenance: the parse generation (the number of parse_tweets calls made
before it in this run) and the item index inside that parse.  The identity
test is modelled as equality of the two provenance tags.

Numeric attribute values (data-time-ms, data-tweet-stat-count) are modelled
as already-parsed naturals when present; the claims under study exercise
presence and absence of markup, not numeric-literal malformation.  The float
conversion of data-time-ms is modelled as the millisecond value itself.

External capabilities, as the spec itself declares them: the HTTP transport
is a fetch oracle (the value execute_search eventually returns for the n-th
call), the consumer callback is a boolean oracle indexed by call number, and
the HTML parser is modelled by presenting items_html directly as the list of
stream-item blocks that find_all would return, each block carrying exactly
the attributes and sub-nodes that parse_tweets looks up.
-/

/-- One scraped tweet, mirroring the dict built in parse_tweets.  The two
provenance fields idGen and idIdx stand for the object identity of the
tweet_id string (see the header comment); everything else is the dict
content.  created_at holds the data-time-ms value. -/
structure Tweet where
  tweet_id : String
  idGen : Nat
  idIdx : Nat
  text : Option String
  user_id : Option String
  user_screen_name : Option String
  user_name : Option String
  created_at : Option Nat
  retweets : Nat
  favorites : Nat
  geo_text : Option String
  geo_search : Option String
deriving Repr, DecidableEq

/-- The div with class tweet, as read by parse_tweets: the attributes
data-user-id and data-name (none = attribute missing, a lookup raises
KeyError), and data-reply-to-users-json already decoded: none when the
attribute is missing or the JSON does not decode to a list, otherwise the
list of optional screen_name fields of its entries. -/
structure UserDiv where
  dataUserId : Option String
  replyUsersJson : Option (List (Option String))
  dataName : Option String
deriving Repr, DecidableEq

/-- The span with class _timestamp: its data-time-ms attribute (none =
attribute missing, a lookup raises KeyError). -/
structure DateSpan where
  dataTimeMs : Option Nat
deriving Repr, DecidableEq

/-- One span matched by the retweet or favorite CSS selector: its
data-tweet-stat-count attribute (none = attribute missing). -/
structure StatSpan where
  dataTweetStatCount : Option Nat
deriving Repr, DecidableEq

/-- The permalink-tweet-geo-text span of a permalink page: its text and the
href attributes of its anchor elements in document order (an inner none =
anchor without href). -/
structure GeoSpan where
  text : String
  anchorHrefs : List (Option String)
deriving Repr, DecidableEq

/-- The body of the permalink page fetched by get_tweet, reduced to the one
node get_geo looks for. -/
structure PermalinkPage where
  geoSpan : Option GeoSpan
deriving Repr, DecidableEq

/-- One li block with class js-stream-item, reduced to exactly the lookups
parse_tweets performs on it.  permalinkFetch is the transport capability for
the secondary enrichment fetch of get_tweet: none = the request raised (and
was swallowed), some page = the fetched permalink page. -/
structure LiBlock where
  dataItemId : Option String
  tweetTextP : Option String
  tweetDiv : Option UserDiv
  timestampSpan : Option DateSpan
  retweetSpans : List StatSpan
  favoriteSpans : List StatSpan
  permalinkFetch : Option PermalinkPage
deriving Repr, DecidableEq

/-- Model of TwitterSearch.get_user_name: reads data-reply-to-users-json,
decodes it, and takes the screen_name of entry 0; every failure along the
way (missing attribute, bad JSON, empty list, missing field) is caught and
yields None. -/
def get_user_name (d : UserDiv) : Option String :=
  match d.replyUsersJson with
  | some (some name :: _) => some name
  | _ => none

/-- Model of the text clean-up in get_geo: drop newlines, drop the word
from, strip surrounding whitespace. -/
def cleanGeoText (s : String) : String :=
  ((s.replace "\n" "").replace "from" "").trim

/-- Model of TwitterSearch.get_geo: on a page without the geo span the
text access raises and is caught, returning the tweet unchanged.  With the
span, geo_text is assigned first; if the anchor lookup then fails (no
anchor, or anchor without href) the exception is caught AFTER geo_text was
already assigned, so geo_text survives alone. -/
def get_geo (page : PermalinkPage) (t : Tweet) : Tweet :=
  match page.geoSpan with
  | none => t
  | some gs =>
    let t1 := { t with geo_text := some (cleanGeoText gs.text) }
    match gs.anchorHrefs with
    | [] => t1
    | none :: _ => t1
    | some href :: _ => { t1 with geo_search := some href }

/-- Model of TwitterSearch.get_tweet: when user_id is None the URL
concatenation raises TypeError, which is caught, returning None; otherwise
the permalink request outcome (the capability attached to the block) is
returned. -/
def get_tweet (li : LiBlock) (t : Tweet) : Option PermalinkPage :=
  match t.user_id with
  | none => none
  | some _ => li.permalinkFetch

/-- User-details step of parse_tweets: nothing happens without the div; with
the div, the data-user-id and data-name lookups raise KeyError when the
attribute is missing (uncaught, aborting the whole parse), while
get_user_name absorbs its own failures. -/
def userStep (li : LiBlock) (t : Tweet) : Except String Tweet :=
  match li.tweetDiv with
  | none => Except.ok t
  | some d =>
    match d.dataUserId with
    | none => Except.error "KeyError: data-user-id"
    | some uid =>
      match d.dataName with
      | none => Except.error "KeyError: data-name"
      | some nm =>
        Except.ok { t with
          user_id := some uid,
          user_screen_name := get_user_name d,
          user_name := some nm }

/-- Timestamp step of parse_tweets: guarded on the span being present, but
the data-time-ms attribute lookup on a present span raises KeyError when the
attribute is missing. -/
def dateStep (li : LiBlock) (t : Tweet) : Except String Tweet :=
  match li.timestampSpan with
  | none => Except.ok t
  | some ds =>
    match ds.dataTimeMs with
    | none => Except.error "KeyError: data-time-ms"
    | some ms => Except.ok { t with created_at := some ms }

/-- Retweet-count step of parse_tweets: guarded on the selector result being
non-empty; the attribute lookup on the first span raises KeyError when the
attribute is missing. -/
def retweetStep (li : LiBlock) (t : Tweet) : Except String Tweet :=
  match li.retweetSpans with
  | [] => Except.ok t
  | sp :: _ =>
    match sp.dataTweetStatCount with
    | none => Except.error "KeyError: data-tweet-stat-count"
    | some n => Except.ok { t with retweets := n }

/-- Favorite-count step of parse_tweets.  The source guards this step with
len(retweet_span) instead of len(favorite_span): when the retweet selector
matched but the favorite selector did not, favorite_span[0] raises
IndexError; when the retweet selector matched nothing the step is skipped
even if a favorite span is present. -/
def favoriteStep (li : LiBlock) (t : Tweet) : Except String Tweet :=
  match li.retweetSpans with
  | [] => Except.ok t
  | _ :: _ =>
    match li.favoriteSpans with
    | [] => Except.error "IndexError: list index out of range"
    | fs :: _ =>
      match fs.dataTweetStatCount with
      | none => Except.error "KeyError: data-tweet-stat-count"
      | some n => Except.ok { t with favorites := n }

/-- The freshly initialised tweet dict of parse_tweets: id from the
data-item-id attribute of parse generation g, item index i, counts at 0,
everything else unset. -/
def baseTweet (g i : Nat) (tid : String) : Tweet :=
  { tweet_id := tid, idGen := g, idIdx := i,
    text := none, user_id := none, user_screen_name := none,
    user_name := none, created_at := none, retweets := 0, favorites := 0,
    geo_text := none, geo_search := none }

/-- Text step of parse_tweets: guarded on the p node being present. -/
def textStep (li : LiBlock) (t : Tweet) : Tweet :=
  match li.tweetTextP with
  | some s => { t with text := some s }
  | none => t

/-- Permalink enrichment of parse_tweets: get_tweet then, when a page came
back, get_geo on it; a failed secondary fetch leaves the tweet unchanged. -/
def geoPhase (li : LiBlock) (t : Tweet) : Tweet :=
  match get_tweet li t with
  | some page => get_geo page t
  | none => t

/-- Parse of one li block of parse_tweets, at parse generation g and item
index i, in source order: text, user details, permalink enrichment,
timestamp, retweet count, favorite count.  Result ok none models the
continue on a block without data-item-id; an error aborts the whole
parse_tweets call. -/
def parseLi (g i : Nat) (li : LiBlock) : Except String (Option Tweet) :=
  match li.dataItemId with
  | none => Except.ok none
  | some tid =>
    match userStep li (textStep li (baseTweet g i tid)) with
    | Except.error e => Except.error e
    | Except.ok t2 =>
      match dateStep li (geoPhase li t2) with
      | Except.error e => Except.error e
      | Except.ok t4 =>
        match retweetStep li t4 with
        | Except.error e => Except.error e
        | Except.ok t5 =>
          match favoriteStep li t5 with
          | Except.error e => Except.error e
          | Except.ok t6 => Except.ok (some t6)

/-- Fold of parseLi over the blocks of one parse_tweets call, keeping feed
order, skipping blocks without an id, and propagating the first uncaught
exception. -/
def parseLis (g : Nat) : Nat → List LiBlock → Except String (List Tweet)
  | _, [] => Except.ok []
  | i, li :: rest =>
    match parseLi g i li with
    | Except.error e => Except.error e
    | Except.ok none => parseLis g (i + 1) rest
    | Except.ok (some t) =>
      match parseLis g (i + 1) rest with
      | Except.error e => Except.error e
      | Except.ok ts => Except.ok (t :: ts)

/-- Model of TwitterSearch.parse_tweets at parse generation g: items_html is
presented as the list of stream-item blocks find_all would return. -/
def parse_tweets (g : Nat) (items_html : List LiBlock) : Except String (List Tweet) :=
  parseLis g 0 items_html

/-- UTF-8 bytes of one character, for percent-encoding. -/
def utf8Bytes (c : Char) : List Nat :=
  let n := c.toNat
  if n < 128 then [n]
  else if n < 2048 then [192 + n / 64, 128 + n % 64]
  else if n < 65536 then [224 + n / 4096, 128 + (n / 64) % 64, 128 + n % 64]
  else [240 + n / 262144, 128 + (n / 4096) % 64, 128 + (n / 64) % 64, 128 + n % 64]

/-- Upper-case hex digit. -/
def hexDigit (n : Nat) : Char :=
  if n < 10 then Char.ofNat (48 + n) else Char.ofNat (55 + n)

/-- Two-digit upper-case hex rendering of a byte. -/
def hexByte (b : Nat) : String :=
  String.mk [hexDigit (b / 16), hexDigit (b % 16)]

/-- Model of urllib quote_plus on one character: alphanumerics and the four
always-safe characters pass through, a space becomes a plus, everything else
is percent-encoded bytewise. -/
def quoteChar (c : Char) : String :=
  if c.isAlphanum ∨ c = '_' ∨ c = '.' ∨ c = '-' ∨ c = '~' then String.singleton c
  else if c = ' ' then "+"
  else String.join ((utf8Bytes c).map fun b => "%" ++ hexByte b)

/-- Model of urllib quote_plus. -/
def quote_plus (s : String) : String :=
  String.join (s.toList.map quoteChar)

/-- Model of urllib urlencode over an association list in insertion order. -/
def urlencode (params : List (String × String)) : String :=
  String.intercalate "&" (params.map fun p => quote_plus p.1 ++ "=" ++ quote_plus p.2)

/-- Model of TwitterSearch.construct_url: the f and q parameters, then the
optional max_position parameter, urlencoded onto the fixed timeline
endpoint. -/
def construct_url (query : String) (max_position : Option String) : String :=
  let params := [("f", "tweets"), ("q", query)] ++
    (match max_position with
     | some mp => [("max_position", mp)]
     | none => [])
  "https://twitter.com/i/search/timeline?" ++ urlencode params

/-- The JSON envelope execute_search hands back, in the shape the engine
consumes (the external-interface contract: the items_html key is present,
its value possibly null; min_position models presence of that key). -/
structure Envelope where
  items_html : Option (List LiBlock)
  min_position : Option String
deriving Repr, DecidableEq

/-- External world of one perform_search run: fetch n u is the value the
n-th execute_search call (0-based, on URL u) eventually returns (a parsed
JSON value, possibly null); save n b is the boolean the n-th save_tweets
call returns on batch b. -/
structure Env where
  fetch : Nat → String → Option Envelope
  save : Nat → List Tweet → Bool

/-- Mutable locals of perform_search plus the call counters that index the
oracles: fetches counts execute_search calls already made, parses counts
parse_tweets calls (the provenance generation), saves counts save_tweets
calls. -/
structure EngineState where
  url : String
  continue_search : Bool
  min_tweet : Option Tweet
  response : Option Envelope
  fetches : Nat
  parses : Nat
  saves : Nat

/-- Observable actions of a run: a fetch records the URL requested, the
max_position used to build it (none for the initial URL), and whether that
position came verbatim from the provider min_position key; a deliver records
a batch handed to save_tweets. -/
inductive Event where
  | fetch (url : String) (max_position : Option String) (fromProvider : Bool)
  | deliver (batch : List Tweet)
deriving Repr, DecidableEq

/-- How a run ended: done covers every normal exit of the while loop,
parseError an uncaught exception from parse_tweets, fuelOut that the given
iteration budget was exhausted with the loop still live. -/
inductive Outcome where
  | done
  | parseError (msg : String)
  | fuelOut
deriving Repr, DecidableEq

/-- The guard min_tweet[tweet_id] is not max_tweet[tweet_id] of the source:
object identity of the two id strings, which is provenance-tag equality in
this model (see the header comment). -/
def idIsNot (a b : Tweet) : Bool :=
  ¬ (a.idGen = b.idGen ∧ a.idIdx = b.idIdx)

/-- The max_position the advance step uses: the min_position value of the
envelope when that key is present, otherwise the synthesized range marker
combining the id of max_tweet with the id of min_tweet. -/
def nextPosition (resp : Envelope) (maxT minT : Tweet) : String :=
  match resp.min_position with
  | some mp => mp
  | none => "TWEET-" ++ maxT.tweet_id ++ "-" ++ minT.tweet_id

/-- Result of one pass through the loop of perform_search: stop when the
while condition fails, the batch is empty, or parse_tweets raised; next with
the events of the iteration and the successor state otherwise. -/
inductive StepRes where
  | stop (o : Outcome)
  | next (evs : List Event) (st1 : EngineState)

/-- One pass through perform_search: the three-part while condition
(response not None, continue_search, items_html not None), then parse,
break on an empty batch, pin min_tweet on first use, deliver the batch to
save_tweets, and (only when the identity guard passes) compute the next
max_position, rebuild the URL, sleep rate_delay, and fetch the next
response. -/
def searchStep (env : Env) (query : String) (st : EngineState) : StepRes :=
  match st.response with
  | none => StepRes.stop Outcome.done
  | some resp =>
    match st.continue_search with
    | false => StepRes.stop Outcome.done
    | true =>
      match resp.items_html with
      | none => StepRes.stop Outcome.done
      | some html =>
        match parse_tweets st.parses html with
        | Except.error e => StepRes.stop (Outcome.parseError e)
        | Except.ok [] => StepRes.stop Outcome.done
        | Except.ok (t0 :: rest) =>
          let min_tweet := st.min_tweet.getD t0
          let cont := env.save st.saves (t0 :: rest)
          let max_tweet := (t0 :: rest).getLastD t0
          if idIsNot min_tweet max_tweet then
            let max_position := nextPosition resp max_tweet min_tweet
            let url1 := construct_url query (some max_position)
            StepRes.next
              [Event.deliver (t0 :: rest),
               Event.fetch url1 (some max_position) resp.min_position.isSome]
              { url := url1, continue_search := cont,
                min_tweet := some min_tweet,
                response := env.fetch st.fetches url1,
                fetches := st.fetches + 1, parses := st.parses + 1,
                saves := st.saves + 1 }
          else
            StepRes.next [Event.deliver (t0 :: rest)]
              { url := st.url, continue_search := cont,
                min_tweet := some min_tweet, response := st.response,
                fetches := st.fetches, parses := st.parses + 1,
                saves := st.saves + 1 }

/-- The while loop of perform_search, fuelled by a bound on the number of
iterations; fuelOut reports that the budget ran out with the loop still
live. -/
def searchLoop (env : Env) (query : String) : Nat → EngineState → List Event × Outcome
  | 0, _ => ([], Outcome.fuelOut)
  | fuel + 1, st =>
    match searchStep env query st with
    | StepRes.stop o => ([], o)
    | StepRes.next evs st1 =>
      let tail := searchLoop env query fuel st1
      (evs ++ tail.1, tail.2)

/-- State after the prologue of perform_search (initial URL, first
execute_search call), together with the event of that first fetch. -/
def initState (env : Env) (query : String) : EngineState × List Event :=
  let url := construct_url query none
  ({ url := url, continue_search := true, min_tweet := none,
     response := env.fetch 0 url, fetches := 1, parses := 0, saves := 0 },
   [Event.fetch url none false])

/-- Model of TwitterSearch.perform_search: prologue then the while loop,
returning the observable trace and how the run ended. -/
def perform_search (env : Env) (query : String) (fuel : Nat) : List Event × Outcome :=
  let init := initState env query
  let run := searchLoop env query fuel init.1
  (init.2 ++ run.1, run.2)

/-- Max positions of the fetch events of a trace, in order (none = the
initial, position-free URL). -/
def fetchTokens (evs : List Event) : List (Option String) :=
  evs.filterMap fun e => match e with
    | Event.fetch _ mp _ => some mp
    | Event.deliver _ => none

/-- Batches of the deliver events of a trace, in order. -/
def deliveredBatches (evs : List Event) : List (List Tweet) :=
  evs.filterMap fun e => match e with
    | Event.fetch _ _ _ => none
    | Event.deliver b => some b

/-- Model of TwitterSearch.execute_search.  attempt k u is the outcome of
the k-th HTTP-get-plus-json-loads attempt on URL u: error for any transport
failure, timeout or parse failure, ok for a decoded JSON value.  On error
the source logs, sleeps error_delay, and calls itself on the SAME url; the
fuel bounds how many attempts the model is allowed to observe.  The result
carries the decoded value together with the number of failed attempts (=
the number of error_delay sleeps) before it; none means every observed
attempt failed and the source is still retrying. -/
def execute_search (attempt : Nat → String → Except Unit (Option Envelope))
    (url : String) : Nat → Nat → Option (Option Envelope × Nat)
  | 0, _ => none
  | fuel + 1, k =>
    match attempt k url with
    | Except.ok data => some (data, k)
    | Except.error _ => execute_search attempt url fuel (k + 1)

/-- Model of the TwitterSlicer construction: rate and error delays, the date
bounds as whole-day numbers (the source passes midnight datetimes, whose
difference in days is exact), the pool size, and the shared counter field. -/
structure TwitterSlicer where
  rate_delay : Nat
  error_delay : Nat
  sinceDay : Nat
  untilDay : Nat
  n_threads : Nat
  counter : Nat
deriving Repr, DecidableEq

/-- Model of TwitterSlicer.search.  fmt is the strftime capability rendering
a day number as YYYY-MM-DD.  The source computes n_days as the day
difference, builds one day-bounded query per i in range(0, n_days), and
submits each to a ThreadPoolExecutor of max_workers = n_threads, then joins
it with shutdown(wait = True).  The model returns the pool size and the
submitted shard queries in submission order; the bounded-concurrency
execution and the final join are the executor capability. -/
def TwitterSlicer.search (s : TwitterSlicer) (fmt : Nat → String)
    (query : String) : Nat × List String :=
  let n_days := s.untilDay - s.sinceDay
  (s.n_threads,
   (List.range n_days).map fun i =>
     query ++ " since:" ++ fmt (s.sinceDay + i) ++ " until:" ++ fmt (s.sinceDay + i + 1))

/-- Model of TwitterSlicer.save_tweets: bumps the counter field of the
slicer instance once per tweet of the batch and always returns True.  Every
shard submitted by TwitterSlicer.search runs self.perform_search of the SAME
slicer instance, so every shard invokes this method on the one shared
counter. -/
def TwitterSlicer.save_tweets (s : TwitterSlicer) (tweets : List Tweet) :
    TwitterSlicer × Bool :=
  ({ s with counter := s.counter + tweets.length }, true)

/-- Two shard runs of the slicer delivering batches b1 and b2, serialized in
one of the interleavings the shared instance admits: both save_tweets calls
act on the same TwitterSlicer (the closure self of tp.submit), so the second
shard starts from the counter the first shard left behind. -/
def runTwoShardsShared (s : TwitterSlicer) (b1 b2 : List Tweet) : TwitterSlicer :=
  ((s.save_tweets b1).1.save_tweets b2).1

/-- The Boolean well-formedness of one li block under which parse_tweets
cannot raise on it: every PRESENT container carries the attribute the source
reads without a guard, and a favorite span with its attribute is present
whenever a retweet span is (the favorite step is guarded by the length of
the retweet selector result). -/
def wellFormedLi (li : LiBlock) : Bool :=
  (match li.tweetDiv with
   | none => true
   | some d => d.dataUserId.isSome && d.dataName.isSome) &&
  (match li.timestampSpan with
   | none => true
   | some ds => ds.dataTimeMs.isSome) &&
  (match li.retweetSpans with
   | [] => true
   | sp :: _ => sp.dataTweetStatCount.isSome &&
     (match li.favoriteSpans with
      | [] => false
      | fs :: _ => fs.dataTweetStatCount.isSome))

/-- Geo fields a well-formed block is expected to yield: set only when the
user div provided a user id (otherwise get_tweet swallows a TypeError), the
permalink fetch succeeded, and the geo span is present; the search link
additionally needs a first anchor with an href. -/
def expectedGeo (li : LiBlock) : Option String × Option String :=
  match li.tweetDiv with
  | none => (none, none)
  | some d =>
    match d.dataUserId with
    | none => (none, none)
    | some _ =>
      match li.permalinkFetch with
      | none => (none, none)
      | some page =>
        match page.geoSpan with
        | none => (none, none)
        | some gs =>
          (some (cleanGeoText gs.text),
           match gs.anchorHrefs with
           | some href :: _ => some href
           | _ => none)

/-- The tweet a well-formed block with id tid is expected to yield: each
field read off its own markup, and its default when that markup is
absent. -/
def expectedTweet (g i : Nat) (tid : String) (li : LiBlock) : Tweet :=
  { tweet_id := tid, idGen := g, idIdx := i,
    text := li.tweetTextP,
    user_id := match li.tweetDiv with
      | none => none
      | some d => d.dataUserId,
    user_screen_name := match li.tweetDiv with
      | none => none
      | some d => get_user_name d,
    user_name := match li.tweetDiv with
      | none => none
      | some d => d.dataName,
    created_at := match li.timestampSpan with
      | none => none
      | some ds => ds.dataTimeMs,
    retweets := match li.retweetSpans with
      | [] => 0
      | sp :: _ => sp.dataTweetStatCount.getD 0,
    favorites := match li.retweetSpans with
      | [] => 0
      | _ :: _ =>
        match li.favoriteSpans with
        | [] => 0
        | fs :: _ => fs.dataTweetStatCount.getD 0,
    geo_text := (expectedGeo li).1,
    geo_search := (expectedGeo li).2 }

/-- A block that carries only the required id attribute and no optional
markup at all. -/
def simpleLi (tid : String) : LiBlock :=
  { dataItemId := some tid, tweetTextP := none, tweetDiv := none,
    timestampSpan := none, retweetSpans := [], favoriteSpans := [],
    permalinkFetch := none }

/-- A block with no data-item-id attribute (a structural placeholder). -/
def noIdLi : LiBlock :=
  { dataItemId := none, tweetTextP := none, tweetDiv := none,
    timestampSpan := none, retweetSpans := [], favoriteSpans := [],
    permalinkFetch := none }

/-- Retag of the provenance generation of a tweet id: the value a re-parse
of the same block at a later generation produces (same content, fresh
string object). -/
def setGen (g : Nat) (t : Tweet) : Tweet :=
  { t with idGen := g }

/-- Concrete environment for claim C1: two pages of two records each, no
min_position anywhere, consumer always willing, feed ends at the third
fetch. -/
def envC1 : Env :=
  { fetch := fun n _ =>
      match n with
      | 0 => some { items_html := some [simpleLi "100", simpleLi "200"],
                    min_position := none }
      | 1 => some { items_html := some [simpleLi "300", simpleLi "400"],
                    min_position := none }
      | _ => none,
    save := fun _ _ => true }

/-- Concrete environment for claim C2: a single-record first page whose
envelope carries no provider cursor, consumer always willing. -/
def envC2 : Env :=
  { fetch := fun n _ =>
      match n with
      | 0 => some { items_html := some [simpleLi "100"], min_position := none }
      | _ => none,
    save := fun _ _ => true }

/-- Concrete environment showing the single-record page with a provider
cursor present: the cursor is not used in the iteration that first sees the
batch. -/
def envC2b : Env :=
  { fetch := fun n _ =>
      match n with
      | 0 => some { items_html := some [simpleLi "100"],
                    min_position := some "PROVIDER-CURSOR" }
      | _ => none,
    save := fun _ _ => true }

/-- Concrete environment for claim C3: one two-record page without provider
cursor, and a consumer that stops at the very first batch. -/
def envC3 : Env :=
  { fetch := fun n _ =>
      match n with
      | 0 => some { items_html := some [simpleLi "100", simpleLi "200"],
                    min_position := none }
      | 1 => some { items_html := some [simpleLi "300", simpleLi "400"],
                    min_position := none }
      | _ => none,
    save := fun _ _ => false }

/-- Concrete environment for claim C10: a single-record first page, consumer
always willing, provider cursor absent. -/
def envC10 : Env :=
  { fetch := fun n _ =>
      match n with
      | 0 => some { items_html := some [simpleLi "100"], min_position := none }
      | _ => none,
    save := fun _ _ => true }

/-- A block whose user-details div is present but lacks the data-user-id
attribute. -/
def badUserLi : LiBlock :=
  { dataItemId := some "100",
    tweetTextP := some "hello",
    tweetDiv := some { dataUserId := none, replyUsersJson := none,
                       dataName := some "Alice" },
    timestampSpan := none, retweetSpans := [], favoriteSpans := [],
    permalinkFetch := none }

/-- A block whose retweet-count node is present while the favorite-count
node is absent, tripping the misdirected favorite guard. -/
def badFavLi : LiBlock :=
  { dataItemId := some "100", tweetTextP := none, tweetDiv := none,
    timestampSpan := none,
    retweetSpans := [{ dataTweetStatCount := some 5 }],
    favoriteSpans := [],
    permalinkFetch := none }

/-- Concrete environment whose first page parses to zero records (one
structural placeholder block, no id). -/
def envC5b : Env :=
  { fetch := fun n _ =>
      match n with
      | 0 => some { items_html := some [noIdLi], min_position := none }
      | _ => none,
    save := fun _ _ => true }

/-- Concrete environment whose transport yields a null JSON value. -/
def envC5c : Env :=
  { fetch := fun _ _ => none,
    save := fun _ _ => true }

/-- A fully populated well-formed block: every optional container present
and carrying its attributes, including a successful permalink fetch with
geo data. -/
def fullLi : LiBlock :=
  { dataItemId := some "100",
    tweetTextP := some "hello world",
    tweetDiv := some { dataUserId := some "42",
                       replyUsersJson := some [some "alice"],
                       dataName := some "Alice" },
    timestampSpan := some { dataTimeMs := some 1475280000000 },
    retweetSpans := [{ dataTweetStatCount := some 7 }],
    favoriteSpans := [{ dataTweetStatCount := some 9 }],
    permalinkFetch := some { geoSpan := some { text := " from Kansas City ",
                                               anchorHrefs := [some "/search?q=geo"] } } }

/-- Attempt oracle whose first two attempts fail and whose third returns a
parsed envelope. -/
def flakyAttempt : Nat → String → Except Unit (Option Envelope) :=
  fun k _ =>
    match k with
    | 0 => Except.error ()
    | 1 => Except.error ()
    | _ => Except.ok (some { items_html := some [], min_position := none })

/-- Attempt oracle that always fails. -/
def deadAttempt : Nat → String → Except Unit (Option Envelope) :=
  fun _ _ => Except.error ()

/-- A day-number renderer standing for strftime of the witness runs. -/
def dayFmt (d : Nat) : String :=
  toString d

/-
Lemmas.  The first group shows that the parse generation parameter of
parse_tweets lands only in the provenance tag idGen of each produced tweet:
re-parsing the same items_html at a later generation yields the same record
values with freshly tagged id strings, exactly the behaviour of a repeated
BeautifulSoup parse of one HTML fragment.
-/

theorem setGen_textStep (li : LiBlock) (g : Nat) (t : Tweet) :
    textStep li (setGen g t) = setGen g (textStep li t) := by
  obtain ⟨a1, a2, a3, a4, a5, a6, a7, a8, a9, a10, a11, a12⟩ := t
  unfold textStep setGen
  cases li.tweetTextP <;> rfl

theorem setGen_get_geo (p : PermalinkPage) (g : Nat) (t : Tweet) :
    get_geo p (setGen g t) = setGen g (get_geo p t) := by
  obtain ⟨a1, a2, a3, a4, a5, a6, a7, a8, a9, a10, a11, a12⟩ := t
  obtain ⟨gso⟩ := p
  cases gso with
  | none => rfl
  | some gsp =>
    obtain ⟨txt, anchors⟩ := gsp
    cases anchors with
    | nil => rfl
    | cons a rest => cases a <;> rfl

theorem setGen_geoPhase (li : LiBlock) (g : Nat) (t : Tweet) :
    geoPhase li (setGen g t) = setGen g (geoPhase li t) := by
  obtain ⟨a1, a2, a3, a4, a5, a6, a7, a8, a9, a10, a11, a12⟩ := t
  unfold geoPhase get_tweet setGen
  cases a5 with
  | none => rfl
  | some uid =>
    cases li.permalinkFetch with
    | none => rfl
    | some page => exact setGen_get_geo page g _

theorem setGen_userStep (li : LiBlock) (g : Nat) (t : Tweet) :
    userStep li (setGen g t) = (userStep li t).map (setGen g) := by
  obtain ⟨a1, a2, a3, a4, a5, a6, a7, a8, a9, a10, a11, a12⟩ := t
  unfold userStep setGen
  cases li.tweetDiv with
  | none => rfl
  | some d =>
    obtain ⟨du, rj, dn⟩ := d
    cases du <;> cases dn <;> rfl

theorem setGen_dateStep (li : LiBlock) (g : Nat) (t : Tweet) :
    dateStep li (setGen g t) = (dateStep li t).map (setGen g) := by
  obtain ⟨a1, a2, a3, a4, a5, a6, a7, a8, a9, a10, a11, a12⟩ := t
  unfold dateStep setGen
  cases li.timestampSpan with
  | none => rfl
  | some ds =>
    obtain ⟨ms⟩ := ds
    cases ms <;> rfl

theorem setGen_retweetStep (li : LiBlock) (g : Nat) (t : Tweet) :
    retweetStep li (setGen g t) = (retweetStep li t).map (setGen g) := by
  obtain ⟨a1, a2, a3, a4, a5, a6, a7, a8, a9, a10, a11, a12⟩ := t
  unfold retweetStep setGen
  cases li.retweetSpans with
  | nil => rfl
  | cons sp rest =>
    obtain ⟨c⟩ := sp
    cases c <;> rfl

theorem setGen_favoriteStep (li : LiBlock) (g : Nat) (t : Tweet) :
    favoriteStep li (setGen g t) = (favoriteStep li t).map (setGen g) := by
  obtain ⟨a1, a2, a3, a4, a5, a6, a7, a8, a9, a10, a11, a12⟩ := t
  unfold favoriteStep setGen
  cases li.retweetSpans with
  | nil => rfl
  | cons sp rest =>
    cases li.favoriteSpans with
    | nil => rfl
    | cons fs frest =>
      obtain ⟨c⟩ := fs
      cases c <;> rfl

theorem parseLi_retag (g1 g2 i : Nat) (li : LiBlock) :
    parseLi g2 i li = (parseLi g1 i li).map (Option.map (setGen g2)) := by
  cases hid : li.dataItemId with
  | none => simp only [parseLi, hid]; rfl
  | some tid =>
    simp only [parseLi, hid]
    have hbase : baseTweet g2 i tid = setGen g2 (baseTweet g1 i tid) := rfl
    rw [hbase, setGen_textStep, setGen_userStep]
    cases hU : userStep li (textStep li (baseTweet g1 i tid)) with
    | error e => rfl
    | ok t2 =>
      simp only [Except.map]
      rw [setGen_geoPhase, setGen_dateStep]
      cases hD : dateStep li (geoPhase li t2) with
      | error e => rfl
      | ok t4 =>
        simp only [Except.map]
        rw [setGen_retweetStep]
        cases hR : retweetStep li t4 with
        | error e => rfl
        | ok t5 =>
          simp only [Except.map]
          rw [setGen_favoriteStep]
          cases hF : favoriteStep li t5 with
          | error e => rfl
          | ok t6 => rfl

theorem parseLis_retag (g1 g2 : Nat) : ∀ (i : Nat) (lis : List LiBlock),
    parseLis g2 i lis = (parseLis g1 i lis).map (List.map (setGen g2)) := by
  intro i lis
  induction lis generalizing i with
  | nil => rfl
  | cons li rest ih =>
    unfold parseLis
    rw [parseLi_retag g1 g2]
    cases hL : parseLi g1 i li with
    | error e => rfl
    | ok o =>
      cases o with
      | none => simpa using ih (i + 1)
      | some t =>
        simp only [Except.map, Option.map]
        rw [ih (i + 1)]
        cases parseLis g1 (i + 1) rest <;> rfl

theorem parse_tweets_retag (g1 g2 : Nat) (html : List LiBlock) :
    parse_tweets g2 html = (parse_tweets g1 html).map (List.map (setGen g2)) :=
  parseLis_retag g1 g2 0 html

theorem eq_map_self_mem {α : Type} (f : α → α) :
    ∀ l : List α, l = l.map f → ∀ x ∈ l, x = f x := by
  intro l
  induction l with
  | nil => intro _ x hx; cases hx
  | cons a l ih =>
    intro h x hx
    rw [List.map_cons] at h
    injection h with h1 h2
    cases hx with
    | head => exact h1
    | tail _ hmem => exact ih h2 x hmem

theorem parse_tweets_gen (g : Nat) (html : List LiBlock) (ts : List Tweet)
    (h : parse_tweets g html = Except.ok ts) : ∀ t ∈ ts, t.idGen = g := by
  intro t ht
  have h2 := parse_tweets_retag g g html
  rw [h] at h2
  simp only [Except.map] at h2
  injection h2 with h3
  have h4 := eq_map_self_mem (setGen g) ts h3 t ht
  have : (setGen g t).idGen = g := rfl
  rw [h4]
  exact this

/-
Lemmas on the pagination loop.  searchStep_next_char characterises a live
iteration: it always delivers one non-empty batch first, and when it also
fetches with a token the provider did not supply, that token is the range
marker built from the last record of the delivered batch and the pinned
min_tweet (the batch head when min_tweet was not yet set).
-/

theorem searchStep_next_char (env : Env) (q : String) (st : EngineState)
    (evs : List Event) (st1 : EngineState)
    (h : searchStep env q st = StepRes.next evs st1) :
    ∃ t0 rest,
      st1.min_tweet = some (st.min_tweet.getD t0) ∧
      (evs = [Event.deliver (t0 :: rest)] ∨
       ∃ u tok fp, evs = [Event.deliver (t0 :: rest), Event.fetch u (some tok) fp] ∧
         (fp = false →
           tok = "TWEET-" ++ ((t0 :: rest).getLastD t0).tweet_id ++ "-" ++
             (st.min_tweet.getD t0).tweet_id)) := by
  rcases hre : st.response with _ | resp
  · simp [searchStep, hre] at h
  rcases hcs : st.continue_search with _ | _
  · simp [searchStep, hre, hcs] at h
  rcases hih : resp.items_html with _ | html
  · simp [searchStep, hre, hcs, hih] at h
  rcases hp : parse_tweets st.parses html with e | ts
  · simp [searchStep, hre, hcs, hih, hp] at h
  rcases ts with _ | ⟨t0, rest⟩
  · simp [searchStep, hre, hcs, hih, hp] at h
  simp only [searchStep, hre, hcs, hih, hp] at h
  by_cases hg : idIsNot (st.min_tweet.getD t0) ((t0 :: rest).getLastD t0) = true
  · rw [if_pos hg] at h
    injection h with h1 h2
    subst h1
    subst h2
    refine ⟨t0, rest, rfl, Or.inr ⟨_, _, _, rfl, ?_⟩⟩
    intro hfp
    cases hmp : resp.min_position with
    | none => simp [nextPosition, hmp]
    | some mp => rw [hmp] at hfp; simp at hfp
  · rw [if_neg hg] at h
    injection h with h1 h2
    subst h1
    subst h2
    exact ⟨t0, rest, rfl, Or.inl rfl⟩

theorem searchLoop_succ (env : Env) (q : String) (fuel : Nat) (st : EngineState) :
    searchLoop env q (fuel + 1) st =
      match searchStep env q st with
      | StepRes.stop o => ([], o)
      | StepRes.next evs st1 =>
        (evs ++ (searchLoop env q fuel st1).1, (searchLoop env q fuel st1).2) := by
  conv_lhs => rw [searchLoop]

theorem searchLoop_stop (env : Env) (q : String) (fuel : Nat) (st : EngineState)
    (o : Outcome) (h : searchStep env q st = StepRes.stop o) :
    searchLoop env q (fuel + 1) st = ([], o) := by
  rw [searchLoop_succ, h]

theorem searchLoop_next (env : Env) (q : String) (fuel : Nat) (st : EngineState)
    (evs : List Event) (st1 : EngineState)
    (h : searchStep env q st = StepRes.next evs st1) :
    searchLoop env q (fuel + 1) st =
      (evs ++ (searchLoop env q fuel st1).1, (searchLoop env q fuel st1).2) := by
  rw [searchLoop_succ, h]

theorem searchLoop_first_deliver (env : Env) (q : String) :
    ∀ (fuel : Nat) (st : EngineState) (e : Event),
      (searchLoop env q fuel st).1.get? 0 = some e → ∃ b, e = Event.deliver b := by
  intro fuel st e h
  cases fuel with
  | zero => simp [searchLoop] at h
  | succ n =>
    cases hs : searchStep env q st with
    | stop o => rw [searchLoop_stop env q n st o hs] at h; simp at h
    | next evs st1 =>
      rw [searchLoop_next env q n st evs st1 hs] at h
      obtain ⟨t0, rest, hmin, hsh⟩ := searchStep_next_char env q st evs st1 hs
      rcases hsh with he | ⟨u, tok, fp, he, _⟩ <;> subst he <;>
        simp only [List.cons_append, List.nil_append, List.get?_cons_zero] at h <;>
        (injection h with h1; exact ⟨t0 :: rest, h1.symm⟩)

/-- Every provider-free fetch token emitted by the loop from a state whose
min_tweet is already pinned to m is the range marker ending in the id of m,
and the event just before it delivers the batch whose last record supplies
the other id. -/
theorem searchLoop_synth_token (env : Env) (q : String) :
    ∀ (fuel : Nat) (st : EngineState) (m : Tweet), st.min_tweet = some m →
      ∀ (k : Nat) (u tok : String),
        (searchLoop env q fuel st).1.get? (k + 1) =
          some (Event.fetch u (some tok) false) →
        ∃ t0 rest,
          (searchLoop env q fuel st).1.get? k = some (Event.deliver (t0 :: rest)) ∧
          tok = "TWEET-" ++ ((t0 :: rest).getLastD t0).tweet_id ++ "-" ++ m.tweet_id := by
  intro fuel
  induction fuel with
  | zero => intro st m hm k u tok h; simp [searchLoop] at h
  | succ n ih =>
    intro st m hm k u tok h
    cases hs : searchStep env q st with
    | stop o => rw [searchLoop_stop env q n st o hs] at h; simp at h
    | next evs st1 =>
      rw [searchLoop_next env q n st evs st1 hs] at h
      rw [searchLoop_next env q n st evs st1 hs]
      obtain ⟨t0, rest, hmin, hsh⟩ := searchStep_next_char env q st evs st1 hs
      rw [hm] at hmin
      rcases hsh with he | ⟨u2, tok2, fp, he, htok⟩
      · subst he
        simp only [List.cons_append, List.nil_append] at h ⊢
        cases k with
        | zero =>
          rw [List.get?_cons_succ] at h
          obtain ⟨b, hb⟩ := searchLoop_first_deliver env q n st1 _ h
          exact Event.noConfusion hb
        | succ j =>
          rw [List.get?_cons_succ] at h
          rw [List.get?_cons_succ]
          exact ih st1 m (by simpa using hmin) j u tok h
      · subst he
        simp only [List.cons_append, List.nil_append] at h ⊢
        cases k with
        | zero =>
          rw [List.get?_cons_succ, List.get?_cons_zero] at h
          injection h with h1
          injection h1 with hu hmp hfp
          injection hmp with htk
          have hm2 := htok hfp
          rw [hm, Option.getD_some] at hm2
          refine ⟨t0, rest, by rw [List.get?_cons_zero], ?_⟩
          rw [← htk]
          exact hm2
        | succ j =>
          cases j with
          | zero =>
            rw [List.get?_cons_succ, List.get?_cons_succ] at h
            obtain ⟨b, hb⟩ := searchLoop_first_deliver env q n st1 _ h
            exact Event.noConfusion hb
          | succ j2 =>
            rw [List.get?_cons_succ, List.get?_cons_succ] at h
            rw [List.get?_cons_succ, List.get?_cons_succ]
            exact ih st1 m (by simpa using hmin) j2 u tok h

/-- From a fresh run whose first delivered batch starts with h0, every
later provider-free fetch token is the range marker whose second id is the
id of h0 (min_tweet, pinned once to the head of the first batch of the
run), and whose first id comes from the batch delivered just before the
fetch. -/
theorem perform_search_synth_token (env : Env) (q : String) (fuel : Nat)
    (h0 : Tweet) (tl : List Tweet)
    (hfirst : (perform_search env q fuel).1.get? 1 = some (Event.deliver (h0 :: tl))) :
    ∀ (k : Nat) (u tok : String),
      (perform_search env q fuel).1.get? (k + 2) =
        some (Event.fetch u (some tok) false) →
      ∃ t0 rest,
        (perform_search env q fuel).1.get? (k + 1) = some (Event.deliver (t0 :: rest)) ∧
        tok = "TWEET-" ++ ((t0 :: rest).getLastD t0).tweet_id ++ "-" ++ h0.tweet_id := by
  intro k u tok h
  have hps : (perform_search env q fuel).1 =
      Event.fetch (construct_url q none) none false ::
        (searchLoop env q fuel (initState env q).1).1 := rfl
  rw [hps, List.get?_cons_succ] at hfirst h ⊢
  cases fuel with
  | zero => simp [searchLoop] at hfirst
  | succ n =>
    cases hs : searchStep env q (initState env q).1 with
    | stop o => rw [searchLoop_stop env q n _ o hs] at hfirst; simp at hfirst
    | next evs st1 =>
      rw [searchLoop_next env q n _ evs st1 hs] at hfirst h ⊢
      obtain ⟨t0, rest, hmin, hsh⟩ := searchStep_next_char env q _ evs st1 hs
      have hmin1 : st1.min_tweet = some t0 := hmin
      rcases hsh with he | ⟨u2, tok2, fp, he, htok⟩
      · subst he
        simp only [List.cons_append, List.nil_append] at hfirst h ⊢
        rw [List.get?_cons_zero] at hfirst
        injection hfirst with hf1
        injection hf1 with hf2
        injection hf2 with ha hb
        subst ha
        subst hb
        cases k with
        | zero =>
          rw [List.get?_cons_succ] at h
          obtain ⟨b, hb2⟩ := searchLoop_first_deliver env q n st1 _ h
          exact Event.noConfusion hb2
        | succ j =>
          rw [List.get?_cons_succ] at h
          rw [List.get?_cons_succ]
          exact searchLoop_synth_token env q n st1 t0 hmin1 j u tok h
      · subst he
        simp only [List.cons_append, List.nil_append] at hfirst h ⊢
        rw [List.get?_cons_zero] at hfirst
        injection hfirst with hf1
        injection hf1 with hf2
        injection hf2 with ha hb
        subst ha
        subst hb
        cases k with
        | zero =>
          rw [List.get?_cons_succ, List.get?_cons_zero] at h
          injection h with h1
          injection h1 with hu hmp hfp
          injection hmp with htk
          have hm2 := htok hfp
          refine ⟨t0, rest, by rw [List.get?_cons_zero], ?_⟩
          rw [← htk]
          exact hm2
        | succ j =>
          cases j with
          | zero =>
            rw [List.get?_cons_succ, List.get?_cons_succ] at h
            obtain ⟨b, hb2⟩ := searchLoop_first_deliver env q n st1 _ h
            exact Event.noConfusion hb2
          | succ j2 =>
            rw [List.get?_cons_succ, List.get?_cons_succ] at h
            rw [List.get?_cons_succ, List.get?_cons_succ]
            exact searchLoop_synth_token env q n st1 t0 hmin1 j2 u tok h

theorem getLastD_single {α : Type} (a d : α) : [a].getLastD d = a := rfl

/-- On a first page that parses to exactly one record, the loop delivers the
batch, takes the identity guard as false (min_tweet and max_tweet are the
same freshly parsed object), loops WITHOUT fetching, re-parses the same
response into a value-identical record with a fresh id object, delivers it
again, and only then advances: the identity guard now passes, and the next
position is the provider cursor when the envelope has one and otherwise the
range marker built from the two value-identical ids. -/
theorem searchLoop_singleton_two_iter (env : Env) (q : String) (st : EngineState)
    (resp : Envelope) (html : List LiBlock) (t : Tweet) (n : Nat)
    (hre : st.response = some resp) (hcs : st.continue_search = true)
    (hmn : st.min_tweet = none) (hih : resp.items_html = some html)
    (hp : parse_tweets st.parses html = Except.ok [t])
    (hsv : env.save st.saves [t] = true) :
    ∃ st2,
      searchLoop env q (n + 2) st =
        (Event.deliver [t] :: Event.deliver [setGen (st.parses + 1) t] ::
           Event.fetch
             (construct_url q (some (nextPosition resp (setGen (st.parses + 1) t) t)))
             (some (nextPosition resp (setGen (st.parses + 1) t) t))
             resp.min_position.isSome :: (searchLoop env q n st2).1,
         (searchLoop env q n st2).2) := by
  have hgen : t.idGen = st.parses := parse_tweets_gen st.parses html [t] hp t (by simp)
  have hp2 : parse_tweets (st.parses + 1) html =
      Except.ok [setGen (st.parses + 1) t] := by
    rw [parse_tweets_retag st.parses (st.parses + 1) html, hp]
    rfl
  have hguard1 : idIsNot t t = false := by simp [idIsNot]
  have hs1 : searchStep env q st =
      StepRes.next [Event.deliver [t]]
        ⟨st.url, true, some t, st.response, st.fetches, st.parses + 1, st.saves + 1⟩ := by
    simp only [searchStep, hre, hcs, hih, hp, hmn, Option.getD_none, getLastD_single,
      hguard1, Bool.false_eq_true, if_false, hsv]
  have hguard2 : idIsNot t (setGen (st.parses + 1) t) = true := by
    simp only [idIsNot, setGen, hgen, decide_eq_true_eq]
    intro hcontra
    omega
  have hs2 : searchStep env q
      (⟨st.url, true, some t, st.response, st.fetches, st.parses + 1, st.saves + 1⟩ :
        EngineState) =
      StepRes.next
        [Event.deliver [setGen (st.parses + 1) t],
         Event.fetch
           (construct_url q (some (nextPosition resp (setGen (st.parses + 1) t) t)))
           (some (nextPosition resp (setGen (st.parses + 1) t) t))
           resp.min_position.isSome]
        ⟨construct_url q (some (nextPosition resp (setGen (st.parses + 1) t) t)),
         env.save (st.saves + 1) [setGen (st.parses + 1) t], some t,
         env.fetch st.fetches
           (construct_url q (some (nextPosition resp (setGen (st.parses + 1) t) t))),
         st.fetches + 1, st.parses + 1 + 1, st.saves + 1 + 1⟩ := by
    simp only [searchStep, hre, hih, hp2, Option.getD_some, getLastD_single,
      hguard2, if_true]
  refine ⟨⟨construct_url q (some (nextPosition resp (setGen (st.parses + 1) t) t)),
    env.save (st.saves + 1) [setGen (st.parses + 1) t], some t,
    env.fetch st.fetches
      (construct_url q (some (nextPosition resp (setGen (st.parses + 1) t) t))),
    st.fetches + 1, st.parses + 1 + 1, st.saves + 1 + 1⟩, ?_⟩
  rw [searchLoop_next env q (n + 1) st _ _ hs1, searchLoop_next env q n _ _ _ hs2]
  simp

/-- A state whose continue_search flag is false stops at the next
while-condition check, whatever the response holds. -/
theorem searchStep_not_continue (env : Env) (q : String) (st : EngineState)
    (h : st.continue_search = false) :
    searchStep env q st = StepRes.stop Outcome.done := by
  rcases hre : st.response with _ | resp
  · simp [searchStep, hre]
  · simp [searchStep, hre, h]

/-- A state whose response is None stops immediately. -/
theorem searchStep_null_response (env : Env) (q : String) (st : EngineState)
    (h : st.response = none) :
    searchStep env q st = StepRes.stop Outcome.done := by
  simp [searchStep, h]

/-- A state whose response carries a null items_html stops at the
while-condition check. -/
theorem searchStep_null_items (env : Env) (q : String) (st : EngineState)
    (resp : Envelope) (hre : st.response = some resp)
    (hih : resp.items_html = none) :
    searchStep env q st = StepRes.stop Outcome.done := by
  rcases hcs : st.continue_search with _ | _
  · simp [searchStep, hre, hcs]
  · simp [searchStep, hre, hcs, hih]

/-- A live state whose page parses to zero records breaks out of the loop. -/
theorem searchStep_empty_batch (env : Env) (q : String) (st : EngineState)
    (resp : Envelope) (html : List LiBlock)
    (hre : st.response = some resp) (hcs : st.continue_search = true)
    (hih : resp.items_html = some html)
    (hp : parse_tweets st.parses html = Except.ok []) :
    searchStep env q st = StepRes.stop Outcome.done := by
  simp [searchStep, hre, hcs, hih, hp]

/-- An iteration whose save_tweets call returns False still performs the
advance step of the current iteration: when the identity guard passes, the
next URL is constructed and one more fetch is issued; the next
while-condition check then stops the run, and nothing from that last fetch
is parsed or delivered. -/
theorem searchLoop_save_false (env : Env) (q : String) (st : EngineState)
    (resp : Envelope) (html : List LiBlock) (t0 : Tweet) (rest : List Tweet) (n : Nat)
    (hre : st.response = some resp) (hcs : st.continue_search = true)
    (hih : resp.items_html = some html)
    (hp : parse_tweets st.parses html = Except.ok (t0 :: rest))
    (hsv : env.save st.saves (t0 :: rest) = false) :
    ∃ evs,
      searchLoop env q (n + 2) st = (Event.deliver (t0 :: rest) :: evs, Outcome.done) ∧
      (evs = [] ∨ ∃ u mp fp, evs = [Event.fetch u (some mp) fp]) ∧
      deliveredBatches evs = [] := by
  by_cases hg : idIsNot (st.min_tweet.getD t0) ((t0 :: rest).getLastD t0) = true
  · have hs1 : searchStep env q st =
        StepRes.next
          [Event.deliver (t0 :: rest),
           Event.fetch
             (construct_url q
               (some (nextPosition resp ((t0 :: rest).getLastD t0) (st.min_tweet.getD t0))))
             (some (nextPosition resp ((t0 :: rest).getLastD t0) (st.min_tweet.getD t0)))
             resp.min_position.isSome]
          ⟨construct_url q
             (some (nextPosition resp ((t0 :: rest).getLastD t0) (st.min_tweet.getD t0))),
           false, some (st.min_tweet.getD t0),
           env.fetch st.fetches
             (construct_url q
               (some (nextPosition resp ((t0 :: rest).getLastD t0) (st.min_tweet.getD t0)))),
           st.fetches + 1, st.parses + 1, st.saves + 1⟩ := by
      simp only [searchStep, hre, hcs, hih, hp, hg, if_true, hsv]
    rw [searchLoop_next env q (n + 1) st _ _ hs1,
      searchLoop_stop env q n _ Outcome.done (searchStep_not_continue env q _ rfl)]
    refine ⟨[Event.fetch
      (construct_url q
        (some (nextPosition resp ((t0 :: rest).getLastD t0) (st.min_tweet.getD t0))))
      (some (nextPosition resp ((t0 :: rest).getLastD t0) (st.min_tweet.getD t0)))
      resp.min_position.isSome], by simp, Or.inr ⟨_, _, _, rfl⟩, rfl⟩
  · have hs1 : searchStep env q st =
        StepRes.next [Event.deliver (t0 :: rest)]
          ⟨st.url, false, some (st.min_tweet.getD t0), st.response,
           st.fetches, st.parses + 1, st.saves + 1⟩ := by
      simp only [searchStep, hre, hcs, hih, hp, hsv]
      rw [if_neg hg]
    rw [searchLoop_next env q (n + 1) st _ _ hs1,
      searchLoop_stop env q n _ Outcome.done (searchStep_not_continue env q _ rfl)]
    exact ⟨[], by simp, Or.inl rfl, rfl⟩

/-- On a well-formed block (every present container carrying its expected
attributes), parseLi cannot raise and produces exactly the field-wise
expected record: each field is read off its own markup and left at its
default when that markup is absent. -/
theorem parseLi_wellFormed (g i : Nat) (li : LiBlock) (tid : String)
    (hwf : wellFormedLi li = true) (hid : li.dataItemId = some tid) :
    parseLi g i li = Except.ok (some (expectedTweet g i tid li)) := by
  obtain ⟨ido, txt, dv, ds, rts, fvs, pf⟩ := li
  have hid2 : ido = some tid := hid
  subst hid2
  rcases txt with _ | s <;>
  rcases dv with _ | ⟨_ | uid, rj, _ | nm⟩ <;>
  rcases ds with _ | ⟨_ | ms⟩ <;>
  rcases rts with _ | ⟨⟨_ | c⟩, rts2⟩ <;>
  rcases fvs with _ | ⟨⟨_ | f⟩, fvs2⟩ <;>
  rcases pf with _ | ⟨_ | ⟨gtxt, _ | ⟨_ | href, arest⟩⟩⟩ <;>
  first
    | rfl
    | simp [wellFormedLi] at hwf

/-- A batch of well-formed blocks never aborts: parseLis returns ok. -/
theorem parseLis_wellFormed_ok (g : Nat) : ∀ (i : Nat) (lis : List LiBlock),
    (∀ li ∈ lis, wellFormedLi li = true) →
    ∃ ts, parseLis g i lis = Except.ok ts := by
  intro i lis
  induction lis generalizing i with
  | nil => intro _; exact ⟨[], rfl⟩
  | cons li rest ih =>
    intro h
    have hli := h li (by simp)
    obtain ⟨ts, hts⟩ := ih (i + 1) (fun x hx => h x (List.mem_cons_of_mem _ hx))
    rcases hid : li.dataItemId with _ | tid
    · refine ⟨ts, ?_⟩
      have hnone : parseLi g i li = Except.ok none := by
        simp [parseLi, hid]
      simp [parseLis, hnone, hts]
    · have hok := parseLi_wellFormed g i li tid hli hid
      refine ⟨expectedTweet g i tid li :: ts, ?_⟩
      simp [parseLis, hok, hts]

/-
Lemmas on execute_search: the first successful attempt, at whatever index,
is returned with the same URL threaded through every retry; while every
attempt fails the function is still retrying, whatever fuel it is given.
-/

theorem execute_search_first_success
    (attempt : Nat → String → Except Unit (Option Envelope)) (url : String) :
    ∀ (n : Nat) (k fuel : Nat) (d : Option Envelope), n < fuel →
      (∀ m, m < n → attempt (k + m) url = Except.error ()) →
      attempt (k + n) url = Except.ok d →
      execute_search attempt url fuel k = some (d, k + n) := by
  intro n
  induction n with
  | zero =>
    intro k fuel d hfuel hfail hok
    cases fuel with
    | zero => omega
    | succ f =>
      simp only [execute_search]
      rw [show k + 0 = k from rfl] at hok
      rw [hok]
      rfl
  | succ nn ih =>
    intro k fuel d hfuel hfail hok
    cases fuel with
    | zero => omega
    | succ f =>
      simp only [execute_search]
      have h0 : attempt k url = Except.error () := by
        have := hfail 0 (by omega)
        rwa [show k + 0 = k from rfl] at this
      rw [h0]
      have hfail2 : ∀ m, m < nn → attempt (k + 1 + m) url = Except.error () := by
        intro m hm
        have := hfail (m + 1) (by omega)
        rwa [show k + (m + 1) = k + 1 + m by omega] at this
      have hok2 : attempt (k + 1 + nn) url = Except.ok d := by
        rwa [show k + (nn + 1) = k + 1 + nn by omega] at hok
      have hrec := ih (k + 1) f d (by omega) hfail2 hok2
      rw [hrec]
      have harith : k + 1 + nn = k + (nn + 1) := by omega
      rw [harith]

theorem execute_search_all_fail
    (attempt : Nat → String → Except Unit (Option Envelope)) (url : String)
    (h : ∀ m, attempt m url = Except.error ()) :
    ∀ (fuel k : Nat), execute_search attempt url fuel k = none := by
  intro fuel
  induction fuel with
  | zero => intro k; rfl
  | succ f ih =>
    intro k
    simp only [execute_search, h k]
    exact ih (k + 1)

/-
Claim theorems.
-/

/-- Claim C1, counterexample.  On a two-page run without provider cursors
the second synthesized continuation token is TWEET-400-100: its second id
is 100, the id of the first record of the FIRST batch of the run, not 300,
the id of the first record of the second batch as the claim requires; the
claimed token TWEET-400-300 is never produced. -/
theorem C1_counterexample :
    fetchTokens (perform_search envC1 "flu" 3).1 =
      [none, some "TWEET-200-100", some "TWEET-400-100"] ∧
    deliveredBatches (perform_search envC1 "flu" 3).1 =
      [[baseTweet 0 0 "100", baseTweet 0 1 "200"],
       [baseTweet 1 0 "300", baseTweet 1 1 "400"]] ∧
    ("TWEET-400-100" : String) ≠ "TWEET-400-300" :=
  ⟨rfl, rfl, by decide⟩

/-- Claim C1 (amended): whenever the provider supplies no cursor, the
synthesized continuation token is the range marker combining the id of the
last record of the batch just delivered with the id of min_tweet — the
record the engine pinned at the head of the FIRST batch of the run — not
the id of the first record of the current batch.  Stated once for any loop
state whose min_tweet is already pinned, and once for a whole run in terms
of the head of the first delivered batch. -/
theorem C1_theorem :
    (∀ (env : Env) (q : String) (fuel : Nat) (st : EngineState) (m : Tweet),
       st.min_tweet = some m →
       ∀ (k : Nat) (u tok : String),
         (searchLoop env q fuel st).1.get? (k + 1) =
           some (Event.fetch u (some tok) false) →
         ∃ t0 rest,
           (searchLoop env q fuel st).1.get? k = some (Event.deliver (t0 :: rest)) ∧
           tok = "TWEET-" ++ ((t0 :: rest).getLastD t0).tweet_id ++ "-" ++ m.tweet_id) ∧
    (∀ (env : Env) (q : String) (fuel : Nat) (h0 : Tweet) (tl : List Tweet),
       (perform_search env q fuel).1.get? 1 = some (Event.deliver (h0 :: tl)) →
       ∀ (k : Nat) (u tok : String),
         (perform_search env q fuel).1.get? (k + 2) =
           some (Event.fetch u (some tok) false) →
         ∃ t0 rest,
           (perform_search env q fuel).1.get? (k + 1) =
             some (Event.deliver (t0 :: rest)) ∧
           tok = "TWEET-" ++ ((t0 :: rest).getLastD t0).tweet_id ++ "-" ++ h0.tweet_id) :=
  ⟨fun env q fuel st m hm => searchLoop_synth_token env q fuel st m hm,
   fun env q fuel h0 tl hf => perform_search_synth_token env q fuel h0 tl hf⟩

/-- Claim C1, witness: the amended theorem applied to the concrete two-page
run, at the fetch that carries TWEET-400-100. -/
theorem C1_witness :
    ∃ t0 rest,
      (perform_search envC1 "flu" 3).1.get? 3 = some (Event.deliver (t0 :: rest)) ∧
      "TWEET-400-100" =
        "TWEET-" ++ ((t0 :: rest).getLastD t0).tweet_id ++ "-" ++
          (baseTweet 0 0 "100").tweet_id :=
  C1_theorem.2 envC1 "flu" 3 (baseTweet 0 0 "100") [baseTweet 0 1 "200"] (by decide) 2
    (construct_url "flu" (some "TWEET-400-100")) "TWEET-400-100" (by decide)

/-- Claim C2, counterexample.  On a single-record first page without a
provider cursor the engine, far from never synthesizing, advances with the
range marker TWEET-100-100 built from the identical first/last ids (after
re-delivering the batch once); and on a single-record first page WITH a
provider cursor, the iteration that first delivers the batch issues no
fetch at all — the cursor is not used directly. -/
theorem C2_counterexample :
    fetchTokens (perform_search envC2 "flu" 3).1 = [none, some "TWEET-100-100"] ∧
    deliveredBatches (perform_search envC2 "flu" 3).1 =
      [[baseTweet 0 0 "100"], [baseTweet 1 0 "100"]] ∧
    fetchTokens (perform_search envC2b "flu" 1).1 = [none] ∧
    deliveredBatches (perform_search envC2b "flu" 1).1 = [[baseTweet 0 0 "100"]] ∧
    envC2b.fetch 0 (construct_url "flu" none) =
      some { items_html := some [simpleLi "100"],
             min_position := some "PROVIDER-CURSOR" } :=
  ⟨rfl, rfl, rfl, rfl, rfl⟩

/-- Claim C2 (amended): on a first page with exactly one record the
iteration that first sees the batch does not advance at all (the identity
guard compares the id string object with itself); the loop then re-parses
the same response, re-delivers the value-identical batch, and only then
advances — using the provider cursor verbatim when the envelope has one,
and otherwise synthesizing the range marker TWEET-id-id from the two
value-identical ids. -/
theorem C2_theorem :
    ∀ (env : Env) (q : String) (st : EngineState) (resp : Envelope)
      (html : List LiBlock) (t : Tweet) (n : Nat),
      st.response = some resp → st.continue_search = true →
      st.min_tweet = none → resp.items_html = some html →
      parse_tweets st.parses html = Except.ok [t] →
      env.save st.saves [t] = true →
      ∃ st2,
        searchLoop env q (n + 2) st =
          (Event.deliver [t] :: Event.deliver [setGen (st.parses + 1) t] ::
             Event.fetch
               (construct_url q (some (nextPosition resp (setGen (st.parses + 1) t) t)))
               (some (nextPosition resp (setGen (st.parses + 1) t) t))
               resp.min_position.isSome :: (searchLoop env q n st2).1,
           (searchLoop env q n st2).2) ∧
        nextPosition resp (setGen (st.parses + 1) t) t =
          (match resp.min_position with
           | some mp => mp
           | none => "TWEET-" ++ t.tweet_id ++ "-" ++ t.tweet_id) := by
  intro env q st resp html t n hre hcs hmn hih hp hsv
  obtain ⟨st2, heq⟩ :=
    searchLoop_singleton_two_iter env q st resp html t n hre hcs hmn hih hp hsv
  refine ⟨st2, heq, ?_⟩
  rcases hmp : resp.min_position with _ | mp <;> simp [nextPosition, hmp, setGen]

/-- Claim C2, witness: the amended theorem applied to the concrete
single-record cursor-free run. -/
theorem C2_witness :
    ∃ st2,
      searchLoop envC2 "flu" 2 (initState envC2 "flu").1 =
        (Event.deliver [baseTweet 0 0 "100"] ::
           Event.deliver [setGen 1 (baseTweet 0 0 "100")] ::
           Event.fetch
             (construct_url "flu"
               (some (nextPosition
                 { items_html := some [simpleLi "100"], min_position := none }
                 (setGen 1 (baseTweet 0 0 "100")) (baseTweet 0 0 "100"))))
             (some (nextPosition
               { items_html := some [simpleLi "100"], min_position := none }
               (setGen 1 (baseTweet 0 0 "100")) (baseTweet 0 0 "100")))
             false :: (searchLoop envC2 "flu" 0 st2).1,
         (searchLoop envC2 "flu" 0 st2).2) ∧
      nextPosition { items_html := some [simpleLi "100"], min_position := none }
          (setGen 1 (baseTweet 0 0 "100")) (baseTweet 0 0 "100") =
        "TWEET-" ++ (baseTweet 0 0 "100").tweet_id ++ "-" ++
          (baseTweet 0 0 "100").tweet_id :=
  C2_theorem envC2 "flu" (initState envC2 "flu").1
    { items_html := some [simpleLi "100"], min_position := none }
    [simpleLi "100"] (baseTweet 0 0 "100") 0 rfl rfl rfl rfl rfl rfl

/-- Claim C3, counterexample.  The consumer returns false on the first
batch, yet the run still constructs the next URL and issues one more fetch
(the advance block is not guarded by continue_search); only the next
while-condition check ends the run. -/
theorem C3_counterexample :
    (perform_search envC3 "flu" 3).1 =
      [Event.fetch (construct_url "flu" none) none false,
       Event.deliver [baseTweet 0 0 "100", baseTweet 0 1 "200"],
       Event.fetch (construct_url "flu" (some "TWEET-200-100"))
         (some "TWEET-200-100") false] ∧
    (perform_search envC3 "flu" 3).2 = Outcome.done ∧
    envC3.save 0 [baseTweet 0 0 "100", baseTweet 0 1 "200"] = false :=
  ⟨rfl, rfl, rfl⟩

/-- Claim C3 (amended): after the callback returns false the engine still
finishes the current iteration, which — when the identity guard passes —
constructs the next URL and issues exactly one more fetch whose response is
never parsed or delivered; the run then ends, and in every case no further
batch is delivered and at most one further fetch is issued. -/
theorem C3_theorem :
    ∀ (env : Env) (q : String) (st : EngineState) (resp : Envelope)
      (html : List LiBlock) (t0 : Tweet) (rest : List Tweet) (n : Nat),
      st.response = some resp → st.continue_search = true →
      resp.items_html = some html →
      parse_tweets st.parses html = Except.ok (t0 :: rest) →
      env.save st.saves (t0 :: rest) = false →
      ∃ evs,
        searchLoop env q (n + 2) st =
          (Event.deliver (t0 :: rest) :: evs, Outcome.done) ∧
        (evs = [] ∨ ∃ u mp fp, evs = [Event.fetch u (some mp) fp]) ∧
        deliveredBatches evs = [] :=
  fun env q st resp html t0 rest n hre hcs hih hp hsv =>
    searchLoop_save_false env q st resp html t0 rest n hre hcs hih hp hsv

/-- Claim C3, witness: the amended theorem applied to the concrete run
whose consumer stops at the first batch. -/
theorem C3_witness :
    ∃ evs,
      searchLoop envC3 "flu" 2 (initState envC3 "flu").1 =
        (Event.deliver [baseTweet 0 0 "100", baseTweet 0 1 "200"] :: evs,
         Outcome.done) ∧
      (evs = [] ∨ ∃ u mp fp, evs = [Event.fetch u (some mp) fp]) ∧
      deliveredBatches evs = [] :=
  C3_theorem envC3 "flu" (initState envC3 "flu").1
    { items_html := some [simpleLi "100", simpleLi "200"], min_position := none }
    [simpleLi "100", simpleLi "200"] (baseTweet 0 0 "100") [baseTweet 0 1 "200"] 0
    rfl rfl rfl rfl rfl

/-- Claim C4, counterexample.  A record block whose user-details div is
present but lacks the data-user-id attribute makes parse_tweets raise a
KeyError that discards the whole batch, including the well-formed sibling
block; likewise a present retweet-count node with an absent favorite-count
node raises an IndexError (the favorite guard checks the length of the
retweet selector result). -/
theorem C4_counterexample :
    parse_tweets 0 [badUserLi, simpleLi "200"] =
      Except.error "KeyError: data-user-id" ∧
    parse_tweets 0 [badFavLi] =
      Except.error "IndexError: list index out of range" ∧
    wellFormedLi (simpleLi "200") = true :=
  ⟨rfl, rfl, rfl⟩

/-- Claim C4 (amended): absence of the CONTAINER node of a field (text p,
user div, timestamp span, retweet span, the permalink page, its geo span)
independently leaves that field at its default and never affects other
fields, the record, or sibling blocks — any batch of such well-formed
blocks extracts without error, each record carrying exactly the field-wise
expected values; an expected ATTRIBUTE missing on a present container,
however, or a favorite node absent while the retweet node is present,
raises and aborts extraction of the whole batch. -/
theorem C4_theorem :
    (∀ (g i : Nat) (li : LiBlock) (tid : String),
       wellFormedLi li = true → li.dataItemId = some tid →
       parseLi g i li = Except.ok (some (expectedTweet g i tid li))) ∧
    (∀ (g i : Nat) (lis : List LiBlock),
       (∀ li ∈ lis, wellFormedLi li = true) →
       ∃ ts, parseLis g i lis = Except.ok ts) :=
  ⟨parseLi_wellFormed, fun g i lis h => parseLis_wellFormed_ok g i lis h⟩

/-- Claim C4, witness: the amended theorem applied to a fully populated
well-formed block and to a two-block batch. -/
theorem C4_witness :
    parseLi 0 0 fullLi = Except.ok (some (expectedTweet 0 0 "100" fullLi)) ∧
    ∃ ts, parseLis 0 0 [fullLi, simpleLi "200"] = Except.ok ts :=
  ⟨C4_theorem.1 0 0 fullLi "100" rfl rfl,
   C4_theorem.2 0 0 [fullLi, simpleLi "200"]
     (by intro li hli; simp only [List.mem_cons, List.not_mem_nil, or_false] at hli
         rcases hli with rfl | rfl <;> rfl)⟩

/-- Claim C5: the pagination loop reaches DONE whenever (a) the consumer
callback returns false (the run ends within that iteration, after its
unguarded advance step), (b) a live page parses to zero records (the break),
or (c) the response is None or its items_html is null. -/
theorem C5_theorem :
    (∀ (env : Env) (q : String) (st : EngineState) (resp : Envelope)
       (html : List LiBlock) (t0 : Tweet) (rest : List Tweet) (n : Nat),
       st.response = some resp → st.continue_search = true →
       resp.items_html = some html →
       parse_tweets st.parses html = Except.ok (t0 :: rest) →
       env.save st.saves (t0 :: rest) = false →
       (searchLoop env q (n + 2) st).2 = Outcome.done) ∧
    (∀ (env : Env) (q : String) (st : EngineState) (resp : Envelope)
       (html : List LiBlock) (n : Nat),
       st.response = some resp → st.continue_search = true →
       resp.items_html = some html →
       parse_tweets st.parses html = Except.ok [] →
       searchLoop env q (n + 1) st = ([], Outcome.done)) ∧
    (∀ (env : Env) (q : String) (st : EngineState) (n : Nat),
       (st.response = none ∨ ∃ resp, st.response = some resp ∧ resp.items_html = none) →
       searchLoop env q (n + 1) st = ([], Outcome.done)) := by
  refine ⟨?_, ?_, ?_⟩
  · intro env q st resp html t0 rest n hre hcs hih hp hsv
    obtain ⟨evs, heq, _, _⟩ :=
      searchLoop_save_false env q st resp html t0 rest n hre hcs hih hp hsv
    rw [heq]
  · intro env q st resp html n hre hcs hih hp
    exact searchLoop_stop env q n st Outcome.done
      (searchStep_empty_batch env q st resp html hre hcs hih hp)
  · intro env q st n h
    rcases h with hnone | ⟨resp, hre, hih⟩
    · exact searchLoop_stop env q n st _ (searchStep_null_response env q st hnone)
    · exact searchLoop_stop env q n st _ (searchStep_null_items env q st resp hre hih)

/-- Claim C5, witness: the three halting conditions exercised on concrete
runs — consumer refusal, an empty parse, and a null response. -/
theorem C5_witness :
    (searchLoop envC3 "flu" 2 (initState envC3 "flu").1).2 = Outcome.done ∧
    searchLoop envC5b "flu" 1 (initState envC5b "flu").1 = ([], Outcome.done) ∧
    searchLoop envC5c "flu" 1 (initState envC5c "flu").1 = ([], Outcome.done) :=
  ⟨C5_theorem.1 envC3 "flu" (initState envC3 "flu").1
     { items_html := some [simpleLi "100", simpleLi "200"], min_position := none }
     [simpleLi "100", simpleLi "200"] (baseTweet 0 0 "100") [baseTweet 0 1 "200"] 0
     rfl rfl rfl rfl rfl,
   C5_theorem.2.1 envC5b "flu" (initState envC5b "flu").1
     { items_html := some [noIdLi], min_position := none } [noIdLi] 0
     rfl rfl rfl rfl,
   C5_theorem.2.2 envC5c "flu" (initState envC5c "flu").1 0 (Or.inl rfl)⟩

/-- Claim C6: execute_search returns the value of the first successful
attempt on the SAME url, after as many error-delay sleeps as there were
failures, for ANY number of prior failures (no retry ceiling); and while
every attempt fails it returns nothing to the engine, whatever budget it is
observed under — an error is never surfaced. -/
theorem C6_theorem :
    (∀ (attempt : Nat → String → Except Unit (Option Envelope)) (url : String)
       (n fuel : Nat) (d : Option Envelope), n < fuel →
       (∀ m, m < n → attempt m url = Except.error ()) →
       attempt n url = Except.ok d →
       execute_search attempt url fuel 0 = some (d, n)) ∧
    (∀ (attempt : Nat → String → Except Unit (Option Envelope)) (url : String),
       (∀ m, attempt m url = Except.error ()) →
       ∀ (fuel k : Nat), execute_search attempt url fuel k = none) := by
  constructor
  · intro attempt url n fuel d hfuel hfail hok
    have h :=
      execute_search_first_success attempt url n 0 fuel d hfuel
        (fun m hm => by simpa using hfail m hm) (by simpa using hok)
    simpa using h
  · intro attempt url h fuel k
    exact execute_search_all_fail attempt url h fuel k

/-- Claim C6, witness: two failures then a success yields the parsed
envelope with two sleeps; an always-failing transport yields nothing at
budget 7. -/
theorem C6_witness :
    execute_search flakyAttempt "https://twitter.com/i/search/timeline?f=tweets&q=flu"
      5 0 = some (some { items_html := some [], min_position := none }, 2) ∧
    execute_search deadAttempt "u" 7 0 = none :=
  ⟨C6_theorem.1 flakyAttempt "https://twitter.com/i/search/timeline?f=tweets&q=flu"
     2 5 (some { items_html := some [], min_position := none }) (by omega)
     (by intro m hm; interval_cases m <;> rfl) rfl,
   C6_theorem.2 deadAttempt "u" (fun _ => rfl) 7 0⟩

/-- Claim C7: over a span of D whole days the slicer submits exactly D
day-bounded shard queries to a pool of max_workers = n_threads, the i-th
carrying a since clause of day since+i and an until clause of day
since+i+1; the bounded concurrent execution and the final join are the
contract of the submitted-to executor (shutdown with wait). -/
theorem C7_theorem :
    ∀ (s : TwitterSlicer) (fmt : Nat → String) (query : String) (D : Nat),
      s.untilDay = s.sinceDay + D →
      (s.search fmt query).1 = s.n_threads ∧
      (s.search fmt query).2.length = D ∧
      ∀ i, i < D →
        (s.search fmt query).2.get? i =
          some (query ++ " since:" ++ fmt (s.sinceDay + i) ++ " until:" ++
            fmt (s.sinceDay + i + 1)) := by
  intro s fmt query D hD
  have hn : s.untilDay - s.sinceDay = D := by omega
  refine ⟨rfl, ?_, ?_⟩
  · simp [TwitterSlicer.search, hn]
  · intro i hi
    have hr : (List.range D)[i]? = some i := List.getElem?_range hi
    simp [TwitterSlicer.search, hn, hr]

/-- Claim C7, witness: a two-day span yields pool size 2, two shard
queries, and the expected second-day bounds. -/
theorem C7_witness :
    ((⟨0, 5, 100, 102, 2, 0⟩ : TwitterSlicer).search dayFmt "flu").1 = 2 ∧
    ((⟨0, 5, 100, 102, 2, 0⟩ : TwitterSlicer).search dayFmt "flu").2.length = 2 ∧
    ((⟨0, 5, 100, 102, 2, 0⟩ : TwitterSlicer).search dayFmt "flu").2.get? 1 =
      some ("flu" ++ " since:" ++ dayFmt 101 ++ " until:" ++ dayFmt 102) :=
  ⟨(C7_theorem ⟨0, 5, 100, 102, 2, 0⟩ dayFmt "flu" 2 rfl).1,
   (C7_theorem ⟨0, 5, 100, 102, 2, 0⟩ dayFmt "flu" 2 rfl).2.1,
   (C7_theorem ⟨0, 5, 100, 102, 2, 0⟩ dayFmt "flu" 2 rfl).2.2 1 (by omega)⟩

/-- Claim C8, counterexample.  Two shards each delivering one record to the
slicer mutate the SAME counter field: the run of shard two starts from the
count shard one left behind (final count 2), where a shard-local counter
would have shown 1 — the record counter is shared mutable state across
shards, not shard-local. -/
theorem C8_counterexample :
    (runTwoShardsShared ⟨0, 5, 0, 2, 2, 0⟩ [baseTweet 0 0 "100"]
       [baseTweet 0 0 "200"]).counter = 2 ∧
    ((⟨0, 5, 0, 2, 2, 0⟩ : TwitterSlicer).save_tweets [baseTweet 0 0 "200"]).1.counter
      = 1 ∧
    (2 : Nat) ≠ 1 :=
  ⟨rfl, rfl, by decide⟩

/-- Claim C8 (amended): the per-run locals of perform_search (URL,
continuation position, min_tweet) are shard-local, but the consumer
instance is the TwitterSlicer itself, shared by every shard the pool runs
(tp.submit closes over self), so its counter field is shared mutable state
that accumulates the deliveries of all shards. -/
theorem C8_theorem :
    ∀ (s : TwitterSlicer) (b1 b2 : List Tweet),
      runTwoShardsShared s b1 b2 =
        { s with counter := s.counter + b1.length + b2.length } ∧
      (s.save_tweets b1).2 = true :=
  fun s b1 b2 => ⟨rfl, rfl⟩

/-- Claim C9: a block carrying only the required id attribute parses to a
record with that id, both counts at 0, and every optional field unset; a
block lacking the id attribute is skipped without error. -/
theorem C9_theorem :
    ∀ (g : Nat) (tid : String),
      parse_tweets g [simpleLi tid] = Except.ok [baseTweet g 0 tid] ∧
      parse_tweets g [noIdLi] = Except.ok [] ∧
      (baseTweet g 0 tid).tweet_id = tid ∧
      (baseTweet g 0 tid).retweets = 0 ∧
      (baseTweet g 0 tid).favorites = 0 ∧
      (baseTweet g 0 tid).text = none ∧
      (baseTweet g 0 tid).user_id = none ∧
      (baseTweet g 0 tid).user_screen_name = none ∧
      (baseTweet g 0 tid).user_name = none ∧
      (baseTweet g 0 tid).created_at = none ∧
      (baseTweet g 0 tid).geo_text = none ∧
      (baseTweet g 0 tid).geo_search = none :=
  fun g tid => ⟨rfl, rfl, rfl, rfl, rfl, rfl, rfl, rfl, rfl, rfl, rfl, rfl⟩

/-- Claim C10, counterexample.  A run whose first page holds one record and
whose consumer always says continue does NOT spin forever on the same
response: it re-delivers the re-parsed batch once and then (the retained id
string and the freshly parsed one being distinct objects) advances,
issuing a new fetch with the synthesized TWEET-100-100, and reaches DONE
when that fetch returns null — the consumer never returned false. -/
theorem C10_counterexample :
    (perform_search envC10 "flu" 3).1 =
      [Event.fetch (construct_url "flu" none) none false,
       Event.deliver [baseTweet 0 0 "100"],
       Event.deliver [baseTweet 1 0 "100"],
       Event.fetch (construct_url "flu" (some "TWEET-100-100"))
         (some "TWEET-100-100") false] ∧
    (perform_search envC10 "flu" 3).2 = Outcome.done ∧
    envC10.save 0 [baseTweet 0 0 "100"] = true ∧
    envC10.save 1 [baseTweet 1 0 "100"] = true :=
  ⟨rfl, rfl, rfl, rfl⟩

/-- Claim C10 (amended): on a single-record first page with an always-true
consumer the engine delivers the batch, re-parses the same already-fetched
response once and re-delivers the value-identical batch, and then DOES
advance: a new fetch is issued (with the provider cursor or the
synthesized TWEET-id-id) and the run proceeds rather than looping forever
without fetching. -/
theorem C10_theorem :
    ∀ (env : Env) (q : String) (resp : Envelope) (html : List LiBlock)
      (t : Tweet) (n : Nat),
      env.fetch 0 (construct_url q none) = some resp →
      resp.items_html = some html →
      parse_tweets 0 html = Except.ok [t] →
      (∀ k b, env.save k b = true) →
      ∃ u mp fp tail,
        (perform_search env q (n + 2)).1 =
          Event.fetch (construct_url q none) none false ::
          Event.deliver [t] :: Event.deliver [setGen 1 t] ::
          Event.fetch u (some mp) fp :: tail := by
  intro env q resp html t n hfetch hih hp hsave
  obtain ⟨st2, heq⟩ :=
    searchLoop_singleton_two_iter env q (initState env q).1 resp html t n
      hfetch rfl rfl hih hp (hsave 0 [t])
  refine ⟨construct_url q (some (nextPosition resp (setGen 1 t) t)),
    nextPosition resp (setGen 1 t) t, resp.min_position.isSome,
    (searchLoop env q n st2).1, ?_⟩
  have hps : (perform_search env q (n + 2)).1 =
      Event.fetch (construct_url q none) none false ::
        (searchLoop env q (n + 2) (initState env q).1).1 := rfl
  rw [hps, congrArg Prod.fst heq]
  rfl

/-- Claim C10, witness: the amended theorem applied to the concrete
single-record always-continue run. -/
theorem C10_witness :
    ∃ u mp fp tail,
      (perform_search envC10 "flu" 3).1 =
        Event.fetch (construct_url "flu" none) none false ::
        Event.deliver [baseTweet 0 0 "100"] ::
        Event.deliver [setGen 1 (baseTweet 0 0 "100")] ::
        Event.fetch u (some mp) fp :: tail :=
  C10_theorem envC10 "flu"
    { items_html := some [simpleLi "100"], min_position := none }
    [simpleLi "100"] (baseTweet 0 0 "100") 1 rfl rfl rfl (fun _ _ => rfl)
